import Mathlib

/-!
Shallow embedding of the MyKhode/Video-Editor-Backend render and split
endpoints (src/routers/render_router.py, src/routers/upload_router.py,
src/crud/asset_crud.py).

Python floats are modelled as rationals, machine ints as `Int`, optional
payload fields as `Option`, and Python truthiness (`a or b`, `if x:`) by
explicit helpers.  External effects (HTTP downloads, moviepy decoding,
ffmpeg writes, the SQL store, the filesystem) are modelled by explicit
environments and state records threaded through the handlers.
-/

namespace VideoEditor

/-- Python `a or b` for an optional numeric field: `None` and `0` are falsy. -/
def pyOrQ : Option ℚ → ℚ → ℚ
  | none, d => d
  | some x, d => if x = 0 then d else x

/-- Python `a or b` for an optional integer field: `None` and `0` are falsy. -/
def pyOrI : Option Int → Int → Int
  | none, d => d
  | some x, d => if x = 0 then d else x

/-- Python `a or b` for an optional string field: `None` and `""` are falsy. -/
def pyOrS : Option String → String → String
  | none, d => d
  | some s, d => if s = "" then d else s

/-- Python truthiness of an optional string (`if s:`). -/
def strTruthy : Option String → Bool
  | none => false
  | some s => s ≠ ""

/-- Python truthiness of an optional number (`if x:`): `some x` with `x ≠ 0`. -/
def truthyQ : Option ℚ → Option ℚ
  | none => none
  | some x => if x = 0 then none else some x

/-- Python `str.lower()` on one character (ASCII range, as in the payloads). -/
def lowerChar (c : Char) : Char :=
  if 'A' ≤ c ∧ c ≤ 'Z' then Char.ofNat (c.toNat + 32) else c

/-- Python `str.lower()`. -/
def strLower (s : String) : String :=
  String.mk (s.toList.map lowerChar)

/-- Python `str.startswith(pre)`. -/
def strStartsWith (s pre : String) : Bool :=
  pre.toList.isPrefixOf s.toList

/-- Python `str.endswith(suf)`. -/
def strEndsWith (s suf : String) : Bool :=
  suf.toList.reverse.isPrefixOf s.toList.reverse

/-- Python `max(a, b)` on floats. -/
def pyMax (a b : ℚ) : ℚ := if b ≤ a then a else b

/-- Python `min(a, b)` on floats. -/
def pyMin (a b : ℚ) : ℚ := if a ≤ b then a else b

/-- Python `max(a, b)` on ints. -/
def pyMaxI (a b : Int) : Int := if b ≤ a then a else b

/-- Python `min(a, b)` on ints. -/
def pyMinI (a b : Int) : Int := if a ≤ b then a else b

/-! ## Timeline data model (render_router.py payload) -/

/-- The `text` sub-object of a text scrubber (only the content fields read by
`render_video`; the style fields feed the PIL rasterizer, which is not part of
any timing/layering claim). -/
structure TextStyle where
  textContent : Option String := none
  content : Option String := none
  value : Option String := none
deriving DecidableEq

/-- One timeline clip (a "scrubber" in the payload). -/
structure Scrubber where
  mediaType : String := ""
  mediaUrlRemote : Option String := none
  left : ℚ := 0
  width : ℚ := 0
  startTime : Option ℚ := none
  duration : Option ℚ := none
  trimBefore : Option ℚ := none
  left_player : Int := 0
  top_player : Int := 0
  width_player : Int := 0
  height_player : Int := 0
  text : Option TextStyle := none
  name : Option String := none
deriving DecidableEq

/-- One timeline track.  `render_video` only ever reads `scrubbers`; the
`trackNumber` and `id` fields are carried by the payload but ignored by the
handler. -/
structure Track where
  trackNumber : Option Int := none
  id : Option String := none
  scrubbers : List Scrubber := []
deriving DecidableEq

/-- The `/render/render` JSON payload (the fields the handler reads). -/
structure RenderPayload where
  timelineData : Option (List Track) := none
  timeline : Option (List Track) := none
  compositionWidth : Option Int := none
  compositionHeight : Option Int := none
  visualDurationInFrames : Option Int := none
  durationInFrames : Option Int := none
  fps : Option Int := none
  getPixelsPerSecond : Option ℚ := none

/-- `payload.get("timelineData") or payload.get("timeline") or []`. -/
def RenderPayload.timelineOf (p : RenderPayload) : List Track :=
  match p.timelineData with
  | some l => if l = [] then p.timeline.getD [] else l
  | none => p.timeline.getD []

/-- `int(payload.get("compositionWidth") or 1920)`. -/
def RenderPayload.widthOf (p : RenderPayload) : Int :=
  pyOrI p.compositionWidth 1920

/-- `int(payload.get("compositionHeight") or 1080)`. -/
def RenderPayload.heightOf (p : RenderPayload) : Int :=
  pyOrI p.compositionHeight 1080

/-- `int(payload.get("visualDurationInFrames") or payload.get("durationInFrames") or 0)`. -/
def RenderPayload.framesOf (p : RenderPayload) : Int :=
  pyOrI p.visualDurationInFrames (pyOrI p.durationInFrames 0)

/-- `fps = max(24, min(60, int(payload.get("fps") or 30)))`. -/
def RenderPayload.fpsClamped (p : RenderPayload) : Int :=
  pyMaxI 24 (pyMinI 60 (pyOrI p.fps 30))

/-- `pps = float(payload.get("getPixelsPerSecond") or 100.0)`. -/
def RenderPayload.ppsOf (p : RenderPayload) : ℚ :=
  pyOrQ p.getPixelsPerSecond 100

/-! ## Duration resolver (`_compute_timeline_duration_seconds` and the
`total_duration` computation in `render_video`) -/

/-- The `start + dur` extent of one scrubber as used by
`_compute_timeline_duration_seconds`: `left / pps` plus `width / pps`,
both zero when `pps` is falsy. -/
def scrubberExtent (pps : ℚ) (s : Scrubber) : ℚ :=
  (if pps = 0 then 0 else s.left / pps) + (if pps = 0 then 0 else s.width / pps)

/-- `_compute_timeline_duration_seconds(timeline_tracks, pps)`: the running
`max_end` over all image/video scrubbers (the final `max_end or 0.0` returns
the same value, since the accumulator starts at `0.0`). -/
def computeTimelineDurationSeconds (timeline : List Track) (pps : ℚ) : ℚ :=
  timeline.foldl
    (fun acc t =>
      t.scrubbers.foldl
        (fun acc2 s =>
          let mt := strLower s.mediaType
          if mt = "image" ∨ mt = "video" then pyMax acc2 (scrubberExtent pps s)
          else acc2)
        acc)
    0

/-- The resolved total composition duration of `render_video` (lines 116-123):
if `frames > 0` then `max(1/fps, frames/fps)`, else
`max(1/fps, timeline_seconds or (1.0 * 10 / fps))`. -/
def totalDurationOf (p : RenderPayload) : ℚ :=
  let fps : ℚ := (p.fpsClamped : ℚ)
  if 0 < p.framesOf then pyMax (1 / fps) ((p.framesOf : ℚ) / fps)
  else
    let ts := computeTimelineDurationSeconds p.timelineOf p.ppsOf
    pyMax (1 / fps) (if ts = 0 then 10 / fps else ts)

/-! ## Per-clip processing in `render_video` (lines 130-273)

Downloading and decoding of one clip's media is modelled by an environment:
`downloadOk url` says whether `_download_to_temp(url, ...)` succeeds, and
`decode url` gives the media information moviepy obtains when constructing a
clip from the (downloaded or local) source, or `none` when construction
raises.  Any exception inside the per-scrubber `try` block makes the handler
`continue` to the next scrubber. -/

/-- Information the handler reads off a successfully constructed moviepy
clip: `getattr(clip, "duration", ...)` and, for video, whether `clip.audio`
is not `None`. -/
structure MediaInfo where
  duration : Option ℚ := none
  hasAudio : Bool := false
deriving DecidableEq

/-- External world seen by `render_video`. -/
structure RenderEnv where
  downloadOk : String → Bool
  decode : String → Option MediaInfo
  pilAvailable : Bool := true

/-- Resolving one media reference: for an `http...` URL the handler first runs
`_download_to_temp` (failure raises, clip skipped) and then constructs the
moviepy clip from the local copy; for any other reference it constructs the
clip from the path directly. -/
def resolveMedia (env : RenderEnv) (url : String) : Option MediaInfo :=
  if strStartsWith url ("http") then
    if env.downloadOk url then env.decode url else none
  else env.decode url

/-- Kind tag of a visual layer appended to `clips`. -/
inductive MediaKind
  | image
  | video
  | text
deriving DecidableEq

/-- One visual layer as appended to the `clips` list: kind, start time,
clip duration, player position and player size. -/
structure VisData where
  kind : MediaKind
  start : ℚ
  dur : ℚ
  posLeft : Int
  posTop : Int
  w : Int
  h : Int
deriving DecidableEq

/-- One element of the `audio_clips` list: start offset and trimmed length. -/
structure AudioSeg where
  start : ℚ
  len : ℚ
deriving DecidableEq

/-- What one scrubber contributes: at most one visual layer and at most one
audio segment (a video clip can contribute both). -/
structure ScrubOut where
  vis : Option VisData := none
  aud : Option AudioSeg := none
deriving DecidableEq

/-- `start = float(s.get("startTime") or (float(s.get("left", 0)) / pps if pps else 0))`. -/
def scrubberStart (p : RenderPayload) (s : Scrubber) : ℚ :=
  pyOrQ s.startTime (if p.ppsOf = 0 then 0 else s.left / p.ppsOf)

/-- `dur = float(s.get("duration") or (float(s.get("width", 0)) / pps if pps else 0))`. -/
def resolvedDur (p : RenderPayload) (s : Scrubber) : ℚ :=
  pyOrQ s.duration (if p.ppsOf = 0 then 0 else s.width / p.ppsOf)

/-- `tb = tb / 1000.0 if tb > 1000 else tb` (the ms-vs-seconds compatibility rule). -/
def trimBeforeSeconds (tb : ℚ) : ℚ :=
  if 1000 < tb then tb / 1000 else tb

/-- Text content resolution for a text scrubber:
`t.get("textContent") or t.get("content") or t.get("value") or s.get("name") or ""`. -/
def textContentOf (s : Scrubber) : String :=
  let t := s.text.getD {}
  pyOrS t.textContent (pyOrS t.content (pyOrS t.value (pyOrS s.name "")))

/-- The body of the per-scrubber loop of `render_video` (lines 132-273),
with `totalDuration` the already-resolved composition duration. -/
def processScrub (env : RenderEnv) (p : RenderPayload) (totalDuration : ℚ)
    (s : Scrubber) : ScrubOut :=
  if ¬ strTruthy s.mediaUrlRemote then {} else
  let url := s.mediaUrlRemote.getD ""
  let start := scrubberStart p s
  let dur := resolvedDur p s
  if dur ≤ 0 then {} else
  let mt := strLower s.mediaType
  if mt = "image" then
    match resolveMedia env url with
    | none => {}
    | some _ =>
      let stop := pyMin (start + dur) totalDuration
      let newDur := pyMax 0 (stop - start)
      if newDur ≤ 0 then {}
      else { vis := some ⟨.image, start, newDur, s.left_player, s.top_player,
                          s.width_player, s.height_player⟩ }
  else if mt = "video" then
    match resolveMedia env url with
    | none => {}
    | some info =>
      let srcDur := info.duration.getD dur
      let visLen :=
        match truthyQ s.trimBefore with
        | some tbRaw =>
          let tb := trimBeforeSeconds tbRaw
          let maxEnd := pyMin totalDuration (tb + dur)
          pyMin maxEnd srcDur - tb
        | none =>
          let maxEnd := pyMin (totalDuration - start) dur
          pyMax 0 (pyMin maxEnd srcDur)
      { vis := some ⟨.video, start, visLen, s.left_player, s.top_player,
                      s.width_player, s.height_player⟩
        aud := if info.hasAudio then some ⟨start, visLen⟩ else none }
  else if mt = "text" then
    if textContentOf s = "" then {} else
    if ¬ env.pilAvailable then {} else
    let stop := pyMin (start + dur) totalDuration
    let newDur := pyMax 0 (stop - start)
    if newDur ≤ 0 then {}
    else { vis := some ⟨.text, start, newDur, s.left_player, s.top_player,
                        s.width_player, s.height_player⟩ }
  else if mt = "audio" then
    match resolveMedia env url with
    | none => {}
    | some info =>
      let srcDur := info.duration.getD dur
      let len :=
        match truthyQ s.trimBefore with
        | some tbRaw =>
          let tb := trimBeforeSeconds tbRaw
          pyMin (tb + dur) srcDur - tb
        | none => pyMin dur srcDur
      { aud := some ⟨start, len⟩ }
  else {}

/-- The visual layers (`clips` minus the base layer) contributed by a list of
tracks, in traversal order: outer loop over tracks, inner loop over
scrubbers. -/
def visList (env : RenderEnv) (p : RenderPayload) (total : ℚ) :
    List Track → List VisData
  | [] => []
  | t :: ts =>
    t.scrubbers.filterMap (fun s => (processScrub env p total s).vis)
      ++ visList env p total ts

/-- The `audio_clips` list contributed by a list of tracks, in traversal
order. -/
def audioList (env : RenderEnv) (p : RenderPayload) (total : ℚ) :
    List Track → List AudioSeg
  | [] => []
  | t :: ts =>
    t.scrubbers.filterMap (fun s => (processScrub env p total s).aud)
      ++ audioList env p total ts

/-- The visual layers of a whole render request. -/
def renderVisuals (env : RenderEnv) (p : RenderPayload) : List VisData :=
  visList env p (totalDurationOf p) p.timelineOf

/-- The audio segments of a whole render request. -/
def renderAudio (env : RenderEnv) (p : RenderPayload) : List AudioSeg :=
  audioList env p (totalDurationOf p) p.timelineOf

/-- One entry of the final `clips` list handed to `CompositeVideoClip`:
the base `ColorClip` or a media layer. -/
inductive CompLayer
  | base (w h : Int) (dur : ℚ)
  | media (v : VisData)
deriving DecidableEq

/-- The full `clips` list handed to `CompositeVideoClip(clips, ...)`:
the base background first, then the visual layers in traversal order
(later entries are composited on top). -/
def compositeClips (env : RenderEnv) (p : RenderPayload) : List CompLayer :=
  .base p.widthOf p.heightOf (totalDurationOf p) ::
    (renderVisuals env p).map .media

/-- Total extent of the `CompositeAudioClip` built from `audio_clips`:
the maximum over segments of `start + len` (0 when there are none). -/
def mixedAudioEnd (env : RenderEnv) (p : RenderPayload) : ℚ :=
  ((renderAudio env p).map (fun a => a.start + a.len)).foldr pyMax 0

/-! ## Layer provenance

For claims about stacking order each visual layer is tagged with the position
of its originating track in the `timelineData` list and the position of its
scrubber within that track. -/

/-- A visual layer tagged with its provenance. -/
structure Layer where
  trackIdx : Nat
  scrubIdx : Nat
  data : VisData
deriving DecidableEq

/-- Tagged visual layers of one track, with scrubber indices counted from
`si`. -/
def trackLayersFrom (env : RenderEnv) (p : RenderPayload) (total : ℚ)
    (ti : Nat) : Nat → List Scrubber → List Layer
  | _, [] => []
  | si, s :: ss =>
    (match (processScrub env p total s).vis with
     | some v => [⟨ti, si, v⟩]
     | none => []) ++ trackLayersFrom env p total ti (si + 1) ss

/-- Tagged visual layers of a track list, with track indices counted from
`ti`. -/
def layersFrom (env : RenderEnv) (p : RenderPayload) (total : ℚ) :
    Nat → List Track → List Layer
  | _, [] => []
  | ti, t :: ts =>
    trackLayersFrom env p total ti 0 t.scrubbers
      ++ layersFrom env p total (ti + 1) ts

/-- The tagged visual layers of a render request, in the order they are
appended to `clips` (so a later list position is composited on top). -/
def visualLayers (env : RenderEnv) (p : RenderPayload) : List Layer :=
  layersFrom env p (totalDurationOf p) 0 p.timelineOf

/-- Modelled from the spec: the numeric track order the spec claims is used
for layering — "prefer explicit `trackNumber`; else parse a trailing integer
from a `track-N` style identifier; else 0".  `render_video` itself never
reads these fields. -/
def parseTrailingNat (s : String) : Nat :=
  let ds := (s.toList.reverse.takeWhile (fun c => c.isDigit)).reverse
  ds.foldl (fun acc c => acc * 10 + (c.toNat - 48)) 0

/-- Modelled from the spec: the sort key of one track under the spec's
claimed ordering rule. -/
def specTrackKey (t : Track) : Int :=
  match t.trackNumber with
  | some n => n
  | none => (parseTrailingNat (t.id.getD "") : Int)

/-- The spec's key of the track a layer originated from. -/
def layerTrackKey (p : RenderPayload) (l : Layer) : Int :=
  specTrackKey (p.timelineOf.getD l.trackIdx {})

/-- Two visual layers overlap when their time intervals intersect and their
player rectangles intersect. -/
def overlapping (a b : VisData) : Prop :=
  a.start < b.start + b.dur ∧ b.start < a.start + a.dur ∧
  a.posLeft < b.posLeft + b.w ∧ b.posLeft < a.posLeft + a.w ∧
  a.posTop < b.posTop + b.h ∧ b.posTop < a.posTop + a.h

instance (a b : VisData) : Decidable (overlapping a b) := by
  unfold overlapping; infer_instance

/-- Formalisation of claim C1's layering rule: among the layers composited
for a request, whenever two overlapping layers come from tracks with
strictly ordered spec keys, the layer with the smaller key sits strictly
below (earlier in the `clips` list, hence painted under) the layer with the
larger key. -/
def layeredByTrackKey (env : RenderEnv) (p : RenderPayload) : Prop :=
  ∀ i j : ℕ, ∀ a b : Layer,
    (visualLayers env p).get? i = some a →
    (visualLayers env p).get? j = some b →
    overlapping a.data b.data →
    layerTrackKey p a < layerTrackKey p b →
    i < j

/-! ## Filesystem footprint of `render_video` (claim C6)

`_download_to_temp` creates a `media_*` temp file per fetched remote source;
`render_video` then creates one `render_*` temp directory and writes
`output.mp4` inside it.  The handler contains no removal of any of these:
the only `finally` clause closes the composite clip.  The temp files are
modelled by their URLs. -/

/-- Temp-file state: downloaded `media_*` files and `render_*` directories. -/
structure Fs where
  files : List String := []
  dirs : List String := []
deriving DecidableEq

/-- Whether processing scrubber `s` runs `_download_to_temp` successfully
(media types image/video/audio, truthy URL starting with `http`, positive
resolved duration — the download happens before any decode or clamp check
and the created temp file is never removed, even if a later step of the same
scrubber fails). -/
def scrubDownloads (env : RenderEnv) (p : RenderPayload) (s : Scrubber) :
    List String :=
  if ¬ strTruthy s.mediaUrlRemote then [] else
  let url := s.mediaUrlRemote.getD ""
  if resolvedDur p s ≤ 0 then [] else
  let mt := strLower s.mediaType
  if (mt = "image" ∨ mt = "video" ∨ mt = "audio")
      ∧ strStartsWith url ("http") ∧ env.downloadOk url
  then [url] else []

/-- Download side effects of one track's scrubber loop. -/
def trackFs (env : RenderEnv) (p : RenderPayload) : List Scrubber → Fs → Fs
  | [], fs => fs
  | s :: ss, fs =>
    trackFs env p ss { fs with files := fs.files ++ scrubDownloads env p s }

/-- Download side effects of the whole track loop. -/
def tracksFs (env : RenderEnv) (p : RenderPayload) : List Track → Fs → Fs
  | [], fs => fs
  | t :: ts, fs => tracksFs env p ts (trackFs env p t.scrubbers fs)

/-- The downloads of one track's scrubber loop, in order. -/
def trackDownloads (env : RenderEnv) (p : RenderPayload) (ss : List Scrubber) :
    List String :=
  ss.foldr (fun s acc => scrubDownloads env p s ++ acc) []

/-- All URLs downloaded while processing a render request, in order. -/
def downloadsOf (env : RenderEnv) (p : RenderPayload) : List String :=
  p.timelineOf.foldr (fun t acc => trackDownloads env p t.scrubbers ++ acc) []

/-- Outcome of the `write_videofile` stage (lines 285-298): the primary call
with explicit codecs, with one `except TypeError` fallback to a plain call;
any other exception propagates.  No branch removes files. -/
inductive WriteOutcome
  | ok
  | fallbackOk
  | fallbackRaise
  | raiseOther
deriving DecidableEq

/-- Filesystem state when `render_video` finishes (returns or raises), given
the initial state: the scrubber loop adds the downloaded temp files, then
`tempfile.mkdtemp(prefix="render_")` adds the temp directory; no exit path
removes anything (`finally` only closes the composite clip). -/
def renderFs (env : RenderEnv) (p : RenderPayload) (_w : WriteOutcome)
    (fs : Fs) : Fs :=
  let fs1 := tracksFs env p p.timelineOf fs
  { fs1 with dirs := fs1.dirs ++ [("render_tmp")] }

/-! ## Asset store and split endpoints (upload_router.py, asset_crud.py)

The SQL store and the media directory are modelled as explicit state; file
paths are identified with storage keys (all files live directly under
`MEDIA_DIR`).  ffmpeg/moviepy behaviour is an environment: the duration read
off an opened source, whether opening and writing succeed, the ids the
database assigns to new rows. -/

/-- A row of the `assets` table (the columns the split endpoints use). -/
structure Asset where
  id : String := ""
  userId : String := ""
  projectId : Option String := none
  originalName : String := ""
  storageKey : String := ""
  mimeType : String := ""
  sizeBytes : Int := 0
  width : Option Int := none
  height : Option Int := none
  durationSeconds : Option ℚ := none
deriving DecidableEq

/-- Persistent state seen by the split endpoints: files on disk under
`MEDIA_DIR` (named by storage key) and asset rows. -/
structure Store where
  files : List String := []
  assets : List Asset := []
deriving DecidableEq

/-- `find_asset_by_storage_key`: user and storage key must match; the project
filter only applies when a project id is given.  (The `created_at` descending
order of the query is abstracted to first match.) -/
def findByStorageKey (st : Store) (userId : String) (projectId : Option String)
    (key : String) : Option Asset :=
  st.assets.find? fun a =>
    a.userId == userId && a.storageKey == key
      && (projectId == none || a.projectId == projectId)

/-- `find_asset_by_name_project_user`: same shape, matching `original_name`. -/
def findByName (st : Store) (userId : String) (projectId : Option String)
    (nm : String) : Option Asset :=
  st.assets.find? fun a =>
    a.userId == userId && a.originalName == nm
      && (projectId == none || a.projectId == projectId)

/-- `get_asset`: lookup by row id. -/
def getAsset (st : Store) (assetId : String) : Option Asset :=
  st.assets.find? fun a => a.id == assetId

/-- External world seen by the split endpoints. -/
structure SplitEnv where
  moviepyAvailable : Bool := true
  openOk : String → Bool := fun _ => true
  mediaDuration : String → ℚ := fun _ => 0
  writeOk : String → Bool := fun _ => true
  ts : Nat := 0
  freshId : String → String := fun k => k
  guessMime : String → String := fun _ => ""
  fileSize : String → Int := fun _ => 0
  videoWidth : String → Option Int := fun _ => none
  videoHeight : String → Option Int := fun _ => none

/-- The `/media/split` request body. -/
structure MediaSplitRequest where
  storage_key : Option String := none
  name : Option String := none
  project_id : Option String := none
  split_time : ℚ := 0
  keep_original : Bool := false
deriving DecidableEq

/-- The `/media/split-by-id` request body. -/
structure MediaSplitByIdRequest where
  asset_id : String := ""
  project_id : Option String := none
  split_time : Option ℚ := none
  split_frames : Option Int := none
  fps : Int := 30
  keep_original : Bool := false
deriving DecidableEq

/-- `os.remove(path)` composed with the `os.path.exists` guard: after the
call the path does not exist. -/
def removeFile (files : List String) (p : String) : List String :=
  files.filter (fun q => q ≠ p)

/-- Endpoint outcome: created pair, or an HTTP error with status and detail. -/
inductive SplitResult
  | ok (left right : Asset)
  | err (status : Nat) (detail : String)
deriving DecidableEq

/-- `os.path.splitext` on a plain `name.ext` storage key: split at the last
dot (storage keys here always carry a regular extension, so the hidden-file
corner of `os.path.splitext` is not modelled). -/
def splitExt (s : String) : String × String :=
  let cs := s.toList
  if cs.contains '.' then
    let extLen := (cs.reverse.takeWhile (fun c => c ≠ '.')).length + 1
    (String.mk (cs.take (cs.length - extLen)), String.mk (cs.drop (cs.length - extLen)))
  else (s, "")

/-- `s.lower().endswith(tuple)`. -/
def endsWithAny (s : String) (exts : List String) : Bool :=
  exts.any fun e => strEndsWith s e

/-- `mime.startswith("video/") or storage_key.lower().endswith((".mp4", ...))`. -/
def isVideoAsset (a : Asset) : Bool :=
  strStartsWith a.mimeType ("video/")
    || endsWithAny (strLower a.storageKey) [(".mp4"), (".mov"), (".mkv"), (".webm")]

/-- `mime.startswith("audio/") or storage_key.lower().endswith((".mp3", ...))`. -/
def isAudioAsset (a : Asset) : Bool :=
  strStartsWith a.mimeType ("audio/")
    || endsWithAny (strLower a.storageKey) [(".mp3"), (".wav"), (".aac"), (".m4a"), (".ogg")]

/-- Output filenames `{base}_part1_{ts}{ext}` / `{base}_part2_{ts}{ext}`,
with the extension normalized to `.mp4` for video sources. -/
def outNames (a : Asset) (isVid : Bool) (ts : Nat) : String × String :=
  let be := splitExt a.storageKey
  let ext := if isVid ∧ strLower be.2 ≠ (".mp4") then (".mp4") else be.2
  (be.1 ++ ("_part1_") ++ toString ts ++ ext,
   be.1 ++ ("_part2_") ++ toString ts ++ ext)

/-- Asset-location step of `/media/split`: try `storage_key` when truthy,
then `name` when truthy. -/
def locateAsset (st : Store) (user : String) (body : MediaSplitRequest) :
    Option Asset :=
  let a1 := if strTruthy body.storage_key then
      findByStorageKey st user body.project_id (body.storage_key.getD "")
    else none
  match a1 with
  | some a => some a
  | none =>
    if strTruthy body.name then
      findByName st user body.project_id (body.name.getD "")
    else none

/-- The shared encode-then-persist tail of both split endpoints (the two
handlers contain the same duplicated block): write the two sub-clips — on
any write failure remove whatever partial outputs exist and fail with 500,
leaving store rows untouched — then create the two asset rows, then delete
the source file and row unless `keep_original`.  `splitT` is the validated
split point, `total` the source duration. -/
def splitEncodeAndPersist (env : SplitEnv) (st : Store) (user : String)
    (src : Asset) (splitT total : ℚ) (out1 out2 : String) (isVid : Bool)
    (targetProject : Option String) (keepOriginal : Bool) :
    SplitResult × Store :=
  let dur1 := splitT
  let dur2 := total - splitT
  if ¬ env.writeOk out1 then
    (.err 500 ("Split failed"),
     { st with files := removeFile (removeFile st.files out1) out2 })
  else if ¬ env.writeOk out2 then
    (.err 500 ("Split failed"),
     { st with files := removeFile (removeFile (st.files ++ [out1]) out1) out2 })
  else
    let a1 : Asset :=
      { id := env.freshId out1, userId := user, projectId := targetProject,
        originalName := out1, storageKey := out1,
        mimeType := env.guessMime out1, sizeBytes := env.fileSize out1,
        width := if isVid then env.videoWidth src.storageKey else none,
        height := if isVid then env.videoHeight src.storageKey else none,
        durationSeconds := some dur1 }
    let a2 : Asset :=
      { id := env.freshId out2, userId := user, projectId := targetProject,
        originalName := out2, storageKey := out2,
        mimeType := env.guessMime out2, sizeBytes := env.fileSize out2,
        width := if isVid then env.videoWidth src.storageKey else none,
        height := if isVid then env.videoHeight src.storageKey else none,
        durationSeconds := some dur2 }
    let st2 : Store :=
      { files := st.files ++ [out1, out2], assets := st.assets ++ [a1, a2] }
    let st3 : Store :=
      if keepOriginal then st2
      else
        { files := removeFile st2.files src.storageKey,
          assets := st2.assets.filter (fun a => a.id ≠ src.id) }
    (.ok a1 a2, st3)

/-- `POST /media/split` (upload_router.py lines 166-351). -/
def splitMedia (env : SplitEnv) (st : Store) (user : String)
    (body : MediaSplitRequest) : SplitResult × Store :=
  match locateAsset st user body with
  | none => (.err 404 ("Source media not found"), st)
  | some asset =>
    if ¬ st.files.contains asset.storageKey then
      (.err 404 ("Source file missing on server"), st)
    else
      let isVid := isVideoAsset asset
      let isAud := isAudioAsset asset
      if ¬ (isVid || isAud) then
        (.err 400 ("Only audio/video splitting is supported"), st)
      else if body.split_time ≤ 0 then
        (.err 400 ("split_time must be > 0"), st)
      else
        let outs := outNames asset isVid env.ts
        if ¬ env.moviepyAvailable then
          (.err 500 ("moviepy not available"), st)
        else if ¬ env.openOk asset.storageKey then
          (.err 500 ("Split failed"),
           { st with files := removeFile (removeFile st.files outs.1) outs.2 })
        else
          let total := env.mediaDuration asset.storageKey
          if total ≤ body.split_time then
            (.err 400 ("split_time beyond duration"), st)
          else
            splitEncodeAndPersist env st user asset body.split_time total
              outs.1 outs.2 isVid asset.projectId body.keep_original

/-- Split-point computation of `/media/split-by-id`: prefer
`split_frames / fps` when `split_frames` is given and `fps` is truthy and
positive, else `split_time`, else reject. -/
def computeSplitT (body : MediaSplitByIdRequest) : Option ℚ :=
  if body.split_frames.isSome ∧ 0 < body.fps then
    some ((body.split_frames.getD 0 : ℚ) / (body.fps : ℚ))
  else body.split_time

/-- The clamp of `/media/split-by-id` at lines 437-439/466-467: a split point
at or beyond the source duration becomes `max(0.0, total - 0.033)`. -/
def clampSplitToDuration (splitT total : ℚ) : ℚ :=
  if total ≤ splitT then pyMax 0 (total - 33 / 1000) else splitT

/-- The tail of `/media/split-by-id` from the source-file check onward, for
an already-located asset and an already-bumped split point `splitT1`. -/
def byIdAfterSplit (env : SplitEnv) (st : Store) (user : String)
    (asset : Asset) (targetProject : Option String) (keepOriginal : Bool)
    (splitT1 : ℚ) : SplitResult × Store :=
  if ¬ st.files.contains asset.storageKey then
    (.err 404 ("Source file missing on server"), st)
  else
    let isVid := isVideoAsset asset
    let isAud := isAudioAsset asset
    if ¬ (isVid || isAud) then
      (.err 400 ("Only audio/video splitting is supported"), st)
    else
      let outs := outNames asset isVid env.ts
      if ¬ env.moviepyAvailable then
        (.err 500 ("moviepy not available"), st)
      else if ¬ env.openOk asset.storageKey then
        (.err 500 ("Split failed"),
         { st with files := removeFile (removeFile st.files outs.1) outs.2 })
      else
        let total := env.mediaDuration asset.storageKey
        splitEncodeAndPersist env st user asset
          (clampSplitToDuration splitT1 total) total
          outs.1 outs.2 isVid targetProject keepOriginal

/-- `POST /media/split-by-id` (upload_router.py lines 364-551).  A
non-positive computed split point is bumped to the minimal positive value
`0.033` instead of being rejected.  (In the handler the source-file and
media-kind checks run before the bump; neither reads the split point nor
changes state, so commuting them with the bump leaves every result
unchanged.) -/
def splitMediaById (env : SplitEnv) (st : Store) (user : String)
    (body : MediaSplitByIdRequest) : SplitResult × Store :=
  match getAsset st body.asset_id with
  | none => (.err 404 ("Asset not found"), st)
  | some asset =>
    if asset.userId ≠ user then (.err 404 ("Asset not found"), st)
    else
      let targetProject :=
        if strTruthy body.project_id then body.project_id else asset.projectId
      match computeSplitT body with
      | none => (.err 400 ("Provide split_time or split_frames+fps"), st)
      | some splitT0 =>
        let splitT1 := if splitT0 ≤ 0 then 33 / 1000 else splitT0
        byIdAfterSplit env st user asset targetProject body.keep_original splitT1

/-- The asset `/media/split-by-id` operates on: `get_asset` plus the
ownership check. -/
def locateById (st : Store) (user : String) (body : MediaSplitByIdRequest) :
    Option Asset :=
  match getAsset st body.asset_id with
  | none => none
  | some a => if a.userId ≠ user then none else some a

/-! ## Concrete example inputs -/

/-- Environment in which every download and decode succeeds. -/
def envAllMedia : RenderEnv :=
  { downloadOk := fun _ => true
    decode := fun _ => some { duration := some 60, hasAudio := false } }

/-- A remote image clip: 1s–6s on the timeline, 100×100 at the origin. -/
def scrubImageA : Scrubber :=
  { mediaType := ("image"), mediaUrlRemote := some ("http://h/a.png")
    left := 200, width := 300
    startTime := some 1, duration := some 5
    width_player := 100, height_player := 100 }

/-- A track explicitly numbered 2 (earlier in input order). -/
def trackNumTwo : Track := { trackNumber := some 2, scrubbers := [scrubImageA] }

/-- A track explicitly numbered 1 (later in input order). -/
def trackNumOne : Track := { trackNumber := some 1, scrubbers := [scrubImageA] }

/-- Payload whose input track order is opposite to the `trackNumber` order. -/
def payloadC1 : RenderPayload :=
  { timelineData := some [trackNumTwo, trackNumOne]
    durationInFrames := some 300 }

/-- Payload with an explicit frame count of 150 and no fps field. -/
def payload150 : RenderPayload := { durationInFrames := some 150 }

/-- The empty payload: no frames, no tracks. -/
def payloadEmpty : RenderPayload := {}

/-- Payload with one image clip and no explicit frame count: the clip spans
`left/pps = 2` to `(left+width)/pps = 5` seconds. -/
def payloadOneImage : RenderPayload :=
  { timelineData := some [{ scrubbers := [scrubImageA] }] }

/-- A remote audio clip positioned at 5s with requested duration 10s. -/
def scrubAudioLong : Scrubber :=
  { mediaType := ("audio"), mediaUrlRemote := some ("http://h/a.mp3")
    startTime := some 5, duration := some 10 }

/-- Payload with an 8-second composition (240 frames at 30 fps) and one
audio clip that runs 5s–15s. -/
def payloadC5 : RenderPayload :=
  { timelineData := some [{ scrubbers := [scrubAudioLong] }]
    durationInFrames := some 240 }

/-- Environment whose decoded sources all have duration 10s. -/
def envAudio10 : RenderEnv :=
  { downloadOk := fun _ => true
    decode := fun _ => some { duration := some 10 } }

/-- The image clip of `scrubImageA` with an unreachable URL. -/
def scrubImageBad : Scrubber :=
  { scrubImageA with mediaUrlRemote := some ("http://h/bad.png") }

/-- Environment in which exactly the URL of `scrubImageBad` fails to
download. -/
def envBadOne : RenderEnv :=
  { downloadOk := fun u => u ≠ ("http://h/bad.png")
    decode := fun _ => some { duration := some 60 } }

/-- An image clip with an explicit negative duration. -/
def scrubNegDur : Scrubber :=
  { mediaType := ("image"), mediaUrlRemote := some ("http://h/n.png")
    duration := some (-3) }

/-- A text clip with inline content but no `mediaUrlRemote`. -/
def scrubTextNoUrl : Scrubber :=
  { mediaType := ("text"), text := some { textContent := some ("hello") } }

/-- A stored 10-second video asset. -/
def assetVid : Asset :=
  { id := ("a1"), userId := ("u"), originalName := ("clip.mp4")
    storageKey := ("clip.mp4"), mimeType := ("video/mp4") }

/-- Store holding `assetVid` and its backing file. -/
def stSplit : Store := { files := [("clip.mp4")], assets := [assetVid] }

/-- Split environment: sources are 10s long, everything succeeds, new rows
get id `newid`, outputs are stamped with `ts = 7`. -/
def envSplit : SplitEnv :=
  { mediaDuration := fun _ => 10, ts := 7
    freshId := fun _ => ("newid")
    guessMime := fun _ => ("video/mp4") }

/-- `envSplit` but writing the second output file fails. -/
def envSplitW2Fail : SplitEnv :=
  { envSplit with writeOk := fun q => q ≠ ("clip_part2_7.mp4") }

/-- `/media/split` request at 12s into the 10s source. -/
def bodyBeyond : MediaSplitRequest :=
  { storage_key := some ("clip.mp4"), split_time := 12 }

/-- `/media/split` request with a negative split point. -/
def bodyNeg : MediaSplitRequest :=
  { storage_key := some ("clip.mp4"), split_time := -1 }

/-- `/media/split` request at 4s into the 10s source. -/
def bodyOk : MediaSplitRequest :=
  { storage_key := some ("clip.mp4"), split_time := 4 }

/-- `/media/split-by-id` request at 12s into the 10s source. -/
def byIdBeyond : MediaSplitByIdRequest :=
  { asset_id := ("a1"), split_time := some 12 }

/-- `/media/split-by-id` request with a negative split point. -/
def byIdNeg : MediaSplitByIdRequest :=
  { asset_id := ("a1"), split_time := some (-2) }

/-- Soundness of one split-endpoint outcome with respect to the located
source asset `src`: on an error outcome the asset rows are untouched, no new
file appears and the source file survives; on a success outcome both created
rows are present, and the source row and file are removed exactly when
`keep` is unset. -/
def SplitOutcomeSound (src : Asset) (keep : Bool) (st : Store)
    (r : SplitResult × Store) : Prop :=
  (∀ c m, r.1 = SplitResult.err c m →
    r.2.assets = st.assets ∧ r.2.files ⊆ st.files ∧
    (src.storageKey ∈ st.files → src.storageKey ∈ r.2.files)) ∧
  (∀ a1 a2, r.1 = SplitResult.ok a1 a2 →
    a1 ∈ r.2.assets ∧ a2 ∈ r.2.assets ∧
    (keep = true → r.2.assets = st.assets ++ [a1, a2] ∧
      (src.storageKey ∈ st.files → src.storageKey ∈ r.2.files)) ∧
    (keep = false →
      src.id ∉ r.2.assets.map Asset.id ∧ src.storageKey ∉ r.2.files))

/-! ## Helper lemmas -/

theorem pyMax_eq_max (a b : ℚ) : pyMax a b = max a b := by
  unfold pyMax
  rcases le_total a b with h | h
  · rcases eq_or_lt_of_le h with rfl | hlt
    · simp
    · rw [if_neg (not_le.mpr hlt), max_eq_right h]
  · rw [if_pos h, max_eq_left h]

theorem pyMin_eq_min (a b : ℚ) : pyMin a b = min a b := by
  unfold pyMin
  rcases le_total a b with h | h
  · rw [if_pos h, min_eq_left h]
  · rcases eq_or_lt_of_le h with rfl | hlt
    · simp
    · rw [if_neg (not_le.mpr hlt), min_eq_right h]

theorem visList_append (env : RenderEnv) (p : RenderPayload) (total : ℚ)
    (l1 l2 : List Track) :
    visList env p total (l1 ++ l2)
      = visList env p total l1 ++ visList env p total l2 := by
  induction l1 with
  | nil => simp [visList]
  | cons t ts ih => simp [visList, ih]

theorem audioList_append (env : RenderEnv) (p : RenderPayload) (total : ℚ)
    (l1 l2 : List Track) :
    audioList env p total (l1 ++ l2)
      = audioList env p total l1 ++ audioList env p total l2 := by
  induction l1 with
  | nil => simp [audioList]
  | cons t ts ih => simp [audioList, ih]

theorem visList_skip (env : RenderEnv) (p : RenderPayload) (total : ℚ)
    (s : Scrubber) (hs : (processScrub env p total s).vis = none)
    (tl1 tl2 : List Track) (t : Track) (pre post : List Scrubber) :
    visList env p total (tl1 ++ { t with scrubbers := pre ++ s :: post } :: tl2)
      = visList env p total (tl1 ++ { t with scrubbers := pre ++ post } :: tl2) := by
  rw [visList_append, visList_append]
  simp [visList, List.filterMap_append, List.filterMap_cons, hs]

theorem audioList_skip (env : RenderEnv) (p : RenderPayload) (total : ℚ)
    (s : Scrubber) (hs : (processScrub env p total s).aud = none)
    (tl1 tl2 : List Track) (t : Track) (pre post : List Scrubber) :
    audioList env p total (tl1 ++ { t with scrubbers := pre ++ s :: post } :: tl2)
      = audioList env p total (tl1 ++ { t with scrubbers := pre ++ post } :: tl2) := by
  rw [audioList_append, audioList_append]
  simp [audioList, List.filterMap_append, List.filterMap_cons, hs]

theorem trackLayersFrom_mem (env : RenderEnv) (p : RenderPayload) (total : ℚ)
    (ti : Nat) :
    ∀ ss : List Scrubber, ∀ si : Nat, ∀ l ∈ trackLayersFrom env p total ti si ss,
      l.trackIdx = ti ∧ si ≤ l.scrubIdx := by
  intro ss
  induction ss with
  | nil => intro si l hl; simp [trackLayersFrom] at hl
  | cons s ss ih =>
    intro si l hl
    simp only [trackLayersFrom] at hl
    rcases List.mem_append.mp hl with h | h
    · rcases hv : (processScrub env p total s).vis with _ | v
      · rw [hv] at h; simp at h
      · rw [hv] at h
        simp at h
        subst h
        exact ⟨rfl, le_refl _⟩
    · obtain ⟨h1, h2⟩ := ih (si + 1) l h
      exact ⟨h1, by omega⟩

theorem trackLayersFrom_pairwise (env : RenderEnv) (p : RenderPayload)
    (total : ℚ) (ti : Nat) :
    ∀ ss : List Scrubber, ∀ si : Nat,
      (trackLayersFrom env p total ti si ss).Pairwise
        (fun a b => a.scrubIdx < b.scrubIdx) := by
  intro ss
  induction ss with
  | nil => intro si; simp [trackLayersFrom]
  | cons s ss ih =>
    intro si
    simp only [trackLayersFrom]
    refine List.pairwise_append.mpr ⟨?_, ih (si + 1), ?_⟩
    · rcases hv : (processScrub env p total s).vis with _ | v <;> simp
    · intro a ha b hb
      rcases hv : (processScrub env p total s).vis with _ | v
      · rw [hv] at ha; simp at ha
      · rw [hv] at ha
        simp at ha
        subst ha
        have hb2 := (trackLayersFrom_mem env p total ti ss (si + 1) b hb).2
        simp
        omega

theorem layersFrom_mem (env : RenderEnv) (p : RenderPayload) (total : ℚ) :
    ∀ ts : List Track, ∀ ti : Nat, ∀ l ∈ layersFrom env p total ti ts,
      ti ≤ l.trackIdx := by
  intro ts
  induction ts with
  | nil => intro ti l hl; simp [layersFrom] at hl
  | cons t ts ih =>
    intro ti l hl
    simp only [layersFrom] at hl
    rcases List.mem_append.mp hl with h | h
    · exact le_of_eq (trackLayersFrom_mem env p total ti t.scrubbers 0 l h).1.symm
    · have := ih (ti + 1) l h
      omega

theorem layersFrom_pairwise (env : RenderEnv) (p : RenderPayload) (total : ℚ) :
    ∀ ts : List Track, ∀ ti : Nat,
      (layersFrom env p total ti ts).Pairwise
        (fun a b => a.trackIdx < b.trackIdx
          ∨ (a.trackIdx = b.trackIdx ∧ a.scrubIdx < b.scrubIdx)) := by
  intro ts
  induction ts with
  | nil => intro ti; simp [layersFrom]
  | cons t ts ih =>
    intro ti
    simp only [layersFrom]
    refine List.pairwise_append.mpr ⟨?_, ih (ti + 1), ?_⟩
    · refine List.Pairwise.imp_of_mem ?_
        (trackLayersFrom_pairwise env p total ti t.scrubbers 0)
      intro a b ha hb hab
      exact Or.inr ⟨by
        rw [(trackLayersFrom_mem env p total ti t.scrubbers 0 a ha).1,
          (trackLayersFrom_mem env p total ti t.scrubbers 0 b hb).1], hab⟩
    · intro a ha b hb
      have h1 := (trackLayersFrom_mem env p total ti t.scrubbers 0 a ha).1
      have h2 := layersFrom_mem env p total ts (ti + 1) b hb
      exact Or.inl (by omega)

/-! ## Claims about per-clip exclusion (C9, C10, C7) -/

/-- Claim C9: a clip whose resolved duration (explicit `duration` field, else
`width/pps`) is non-positive contributes no visual layer and no audio
segment, and deleting it from any track leaves both rendered lists
unchanged. -/
theorem nonpositive_duration_clip_excluded (env : RenderEnv)
    (p : RenderPayload) (total : ℚ) (s : Scrubber)
    (h : resolvedDur p s ≤ 0) :
    processScrub env p total s = {} ∧
    ∀ tl1 tl2 : List Track, ∀ t : Track, ∀ pre post : List Scrubber,
      visList env p total
          (tl1 ++ { t with scrubbers := pre ++ s :: post } :: tl2)
        = visList env p total
          (tl1 ++ { t with scrubbers := pre ++ post } :: tl2)
      ∧ audioList env p total
          (tl1 ++ { t with scrubbers := pre ++ s :: post } :: tl2)
        = audioList env p total
          (tl1 ++ { t with scrubbers := pre ++ post } :: tl2) := by
  have hskip : processScrub env p total s = {} := by
    unfold processScrub
    split
    · rfl
    · simp [h]
  refine ⟨hskip, fun tl1 tl2 t pre post => ⟨?_, ?_⟩⟩
  · exact visList_skip env p total s (by rw [hskip]) tl1 tl2 t pre post
  · exact audioList_skip env p total s (by rw [hskip]) tl1 tl2 t pre post

/-- Witness for C9: an image clip with explicit duration −3 is excluded. -/
theorem nonpositive_duration_clip_excluded_witness :
    resolvedDur payloadEmpty scrubNegDur ≤ 0 ∧
    processScrub envAllMedia payloadEmpty 10 scrubNegDur = {} :=
  ⟨by decide,
   (nonpositive_duration_clip_excluded envAllMedia payloadEmpty 10 scrubNegDur
     (by decide)).1⟩

/-- Claim C10: a clip whose `mediaUrlRemote` is missing or empty is excluded
from both the visual layers and the audio mix regardless of `mediaType` — in
particular a text clip with inline content but no URL is never rendered. -/
theorem missing_url_clip_excluded (env : RenderEnv) (p : RenderPayload)
    (total : ℚ) (s : Scrubber)
    (h : s.mediaUrlRemote = none ∨ s.mediaUrlRemote = some ("")) :
    processScrub env p total s = {} ∧
    ∀ tl1 tl2 : List Track, ∀ t : Track, ∀ pre post : List Scrubber,
      visList env p total
          (tl1 ++ { t with scrubbers := pre ++ s :: post } :: tl2)
        = visList env p total
          (tl1 ++ { t with scrubbers := pre ++ post } :: tl2)
      ∧ audioList env p total
          (tl1 ++ { t with scrubbers := pre ++ s :: post } :: tl2)
        = audioList env p total
          (tl1 ++ { t with scrubbers := pre ++ post } :: tl2) := by
  have hu : strTruthy s.mediaUrlRemote = false := by
    rcases h with h | h <;> simp [h, strTruthy]
  have hskip : processScrub env p total s = {} := by
    unfold processScrub
    simp [hu]
  refine ⟨hskip, fun tl1 tl2 t pre post => ⟨?_, ?_⟩⟩
  · exact visList_skip env p total s (by rw [hskip]) tl1 tl2 t pre post
  · exact audioList_skip env p total s (by rw [hskip]) tl1 tl2 t pre post

/-- Witness for C10: a text clip with content but no URL is excluded. -/
theorem missing_url_clip_excluded_witness :
    scrubTextNoUrl.mediaType = ("text") ∧
    textContentOf scrubTextNoUrl = ("hello") ∧
    scrubTextNoUrl.mediaUrlRemote = none ∧
    processScrub envAllMedia payloadEmpty 10 scrubTextNoUrl = {} :=
  ⟨rfl, by decide, rfl,
   (missing_url_clip_excluded envAllMedia payloadEmpty 10 scrubTextNoUrl
     (Or.inl rfl)).1⟩

/-- Claim C7: a failure to resolve or decode one clip's media never aborts
the render: the failing clip contributes nothing, and the visual and audio
lists rendered from a timeline containing it equal those of the timeline
with the clip removed. -/
theorem failing_clip_skipped (env : RenderEnv) (p : RenderPayload)
    (total : ℚ) (s : Scrubber)
    (hres : resolveMedia env (s.mediaUrlRemote.getD "") = none)
    (hty : strLower s.mediaType = ("image") ∨ strLower s.mediaType = ("video")
      ∨ strLower s.mediaType = ("audio")) :
    processScrub env p total s = {} ∧
    ∀ tl1 tl2 : List Track, ∀ t : Track, ∀ pre post : List Scrubber,
      visList env p total
          (tl1 ++ { t with scrubbers := pre ++ s :: post } :: tl2)
        = visList env p total
          (tl1 ++ { t with scrubbers := pre ++ post } :: tl2)
      ∧ audioList env p total
          (tl1 ++ { t with scrubbers := pre ++ s :: post } :: tl2)
        = audioList env p total
          (tl1 ++ { t with scrubbers := pre ++ post } :: tl2) := by
  have hskip : processScrub env p total s = {} := by
    unfold processScrub
    split
    · rfl
    · by_cases hd : resolvedDur p s ≤ 0
      · simp [hd]
      · rcases hty with h | h | h <;> simp [hd, h, hres]
  refine ⟨hskip, fun tl1 tl2 t pre post => ⟨?_, ?_⟩⟩
  · exact visList_skip env p total s (by rw [hskip]) tl1 tl2 t pre post
  · exact audioList_skip env p total s (by rw [hskip]) tl1 tl2 t pre post

/-- Witness for C7: among three image clips the middle one has an
unreachable URL; the rendered layers are those of the two good clips. -/
theorem failing_clip_skipped_witness :
    resolveMedia envBadOne (scrubImageBad.mediaUrlRemote.getD "") = none ∧
    (visList envBadOne payloadEmpty 10
        ([] ++ { ({} : Track) with
          scrubbers := [scrubImageA] ++ scrubImageBad :: [scrubImageA] } :: [])
      = visList envBadOne payloadEmpty 10
        ([] ++ { ({} : Track) with
          scrubbers := [scrubImageA] ++ [scrubImageA] } :: [])) :=
  ⟨by decide,
   ((failing_clip_skipped envBadOne payloadEmpty 10 scrubImageBad (by decide)
       (Or.inl (by decide))).2 [] [] {} [scrubImageA] [scrubImageA]).1⟩

/-! ## Claim C2: total duration resolution -/

/-- Claim C2 (amended): with an explicit positive frame count the duration is
`max(1/fps, frames/fps)` regardless of track content; otherwise it is
`max(1/fps, derived)` where `derived` is the maximum `(left+width)/pps` over
image/video clips — except that when the derived maximum is zero (in
particular for an empty timeline) the duration is ten frames, `10/fps`, not
the one-frame floor. -/
theorem total_duration_characterization (p : RenderPayload) :
    (0 < p.framesOf →
      totalDurationOf p
        = max (1 / (p.fpsClamped : ℚ)) ((p.framesOf : ℚ) / (p.fpsClamped : ℚ))) ∧
    (p.framesOf ≤ 0 →
      computeTimelineDurationSeconds p.timelineOf p.ppsOf ≠ 0 →
      totalDurationOf p
        = max (1 / (p.fpsClamped : ℚ))
            (computeTimelineDurationSeconds p.timelineOf p.ppsOf)) ∧
    (p.framesOf ≤ 0 →
      computeTimelineDurationSeconds p.timelineOf p.ppsOf = 0 →
      totalDurationOf p = 10 / (p.fpsClamped : ℚ)) := by
  have h24 : (24 : Int) ≤ p.fpsClamped := by
    unfold RenderPayload.fpsClamped pyMaxI
    split <;> omega
  have hfpos : (0 : ℚ) < (p.fpsClamped : ℚ) := by
    have h0 : (0 : Int) < p.fpsClamped := by omega
    exact_mod_cast h0
  refine ⟨?_, ?_, ?_⟩
  · intro h
    simp only [totalDurationOf]
    rw [if_pos h, pyMax_eq_max]
  · intro h hne
    simp only [totalDurationOf]
    rw [if_neg (not_lt.mpr h), if_neg hne, pyMax_eq_max]
  · intro h hz
    simp only [totalDurationOf]
    rw [if_neg (not_lt.mpr h), if_pos hz, pyMax_eq_max]
    apply max_eq_right
    rw [div_le_div_iff₀ hfpos hfpos]
    nlinarith [hfpos]

/-- Claim C2 counterexample: the empty payload (no frames, no tracks,
default fps 30) resolves to 1/3 s — ten frames — not the one-frame floor
1/30 s stated by the claim. -/
theorem empty_timeline_not_one_frame :
    totalDurationOf payloadEmpty = 1 / 3 ∧
    totalDurationOf payloadEmpty ≠ 1 / (payloadEmpty.fpsClamped : ℚ) := by
  have hfps : payloadEmpty.fpsClamped = 30 := by decide
  have h : totalDurationOf payloadEmpty = 1 / 3 := by
    norm_num [totalDurationOf, payloadEmpty, RenderPayload.framesOf,
      RenderPayload.fpsClamped, RenderPayload.timelineOf, RenderPayload.ppsOf,
      pyOrI, pyMaxI, pyMinI, pyMax, computeTimelineDurationSeconds]
  refine ⟨h, ?_⟩
  rw [h, hfps]
  norm_num

/-- Witness for C2: all three branches of the characterization at concrete
payloads — 150 explicit frames, the empty payload, and a one-image
timeline spanning 2s–5s. -/
theorem total_duration_characterization_witness :
    (0 < payload150.framesOf ∧
      totalDurationOf payload150
        = max (1 / (payload150.fpsClamped : ℚ))
            ((payload150.framesOf : ℚ) / (payload150.fpsClamped : ℚ))) ∧
    (payloadEmpty.framesOf ≤ 0 ∧
      computeTimelineDurationSeconds payloadEmpty.timelineOf payloadEmpty.ppsOf = 0 ∧
      totalDurationOf payloadEmpty = 10 / (payloadEmpty.fpsClamped : ℚ)) ∧
    (payloadOneImage.framesOf ≤ 0 ∧
      computeTimelineDurationSeconds payloadOneImage.timelineOf payloadOneImage.ppsOf ≠ 0 ∧
      totalDurationOf payloadOneImage
        = max (1 / (payloadOneImage.fpsClamped : ℚ))
            (computeTimelineDurationSeconds payloadOneImage.timelineOf
              payloadOneImage.ppsOf)) := by
  have hD : computeTimelineDurationSeconds payloadOneImage.timelineOf
      payloadOneImage.ppsOf = 5 := by
    have himg : strLower ("image") = ("image") := by decide
    norm_num [computeTimelineDurationSeconds, payloadOneImage,
      RenderPayload.timelineOf, RenderPayload.ppsOf, pyOrQ, scrubberExtent,
      scrubImageA, pyMax, himg]
  refine ⟨⟨by decide, (total_duration_characterization payload150).1 (by decide)⟩,
    ⟨by decide, by decide,
      (total_duration_characterization payloadEmpty).2.2 (by decide) (by decide)⟩,
    ⟨by decide, by rw [hD]; norm_num,
      (total_duration_characterization payloadOneImage).2.1 (by decide)
        (by rw [hD]; norm_num)⟩⟩

/-! ## Claim C1: layering order -/

/-- Claim C1 (amended): `render_video` performs no sorting by `trackNumber`
or track identifier.  Visual layers are stacked bottom-to-top purely in
input order: the `clips` list is strictly ordered lexicographically by
(input track position, scrubber position within the track), so a clip on a
later input track is composited above one on an earlier input track, and
within a track later scrubbers paint above earlier ones. -/
theorem layers_follow_input_track_order (env : RenderEnv) (p : RenderPayload) :
    (visualLayers env p).Pairwise
      (fun a b => a.trackIdx < b.trackIdx
        ∨ (a.trackIdx = b.trackIdx ∧ a.scrubIdx < b.scrubIdx)) :=
  layersFrom_pairwise env p (totalDurationOf p) p.timelineOf 0

/-- Claim C1 counterexample: two identical overlapping image clips sit on a
track numbered 2 followed in input order by a track numbered 1.  Sorting by
`trackNumber` would paint track 1's clip first, but the handler paints in
input order, so the layer with the smaller key (1) sits at a later index
than the layer with the larger key (2), refuting the claimed rule. -/
theorem layers_not_sorted_by_trackNumber :
    ¬ layeredByTrackKey envAllMedia payloadC1 := by
  have h2 : processScrub envAllMedia payloadC1 10 scrubImageA
      = { vis := some ⟨.image, 1, 5, 0, 0, 100, 100⟩ } := by
    have hustr : ("http://h/a.png" : String) ≠ ("") := by decide
    have himg : strLower ("image") = ("image") := by decide
    have hsw : strStartsWith ("http://h/a.png") ("http") = true := by decide
    norm_num [processScrub, scrubImageA, strTruthy, resolveMedia, envAllMedia,
      scrubberStart, resolvedDur, pyOrQ, truthyQ, pyMin, pyMax,
      RenderPayload.ppsOf, payloadC1, himg, hsw, hustr]
  have h1 : totalDurationOf payloadC1 = 10 := by
    norm_num [totalDurationOf, payloadC1, RenderPayload.framesOf,
      RenderPayload.fpsClamped, RenderPayload.ppsOf, pyOrI, pyMaxI, pyMinI,
      pyMax]
  have htl : payloadC1.timelineOf = [trackNumTwo, trackNumOne] := by decide
  have hvl : visualLayers envAllMedia payloadC1
      = [⟨0, 0, ⟨.image, 1, 5, 0, 0, 100, 100⟩⟩,
         ⟨1, 0, ⟨.image, 1, 5, 0, 0, 100, 100⟩⟩] := by
    simp [visualLayers, layersFrom, trackLayersFrom, htl, h1, h2,
      trackNumTwo, trackNumOne]
  intro hcl
  have h := hcl 1 0
    ⟨1, 0, ⟨.image, 1, 5, 0, 0, 100, 100⟩⟩
    ⟨0, 0, ⟨.image, 1, 5, 0, 0, 100, 100⟩⟩
    (by rw [hvl]; rfl)
    (by rw [hvl]; rfl)
    (by norm_num [overlapping])
    (by decide)
  omega

/-! ## Claim C5: audio extent -/

/-- Claim C5 (amended): a standalone audio clip without a truthy
`trimBefore` is trimmed only to `min(requested duration, source duration)`
and positioned at its start offset; no clamp against the composition's
total duration is applied, so the mixed audio extent
(start + trimmed length) can exceed the total composition duration. -/
theorem audio_segment_unclamped (env : RenderEnv) (p : RenderPayload)
    (total : ℚ) (s : Scrubber) (info : MediaInfo)
    (hty : strLower s.mediaType = ("audio"))
    (hurl : strTruthy s.mediaUrlRemote = true)
    (hdur : 0 < resolvedDur p s)
    (hres : resolveMedia env (s.mediaUrlRemote.getD "") = some info)
    (htrim : truthyQ s.trimBefore = none) :
    (processScrub env p total s).aud
      = some ⟨scrubberStart p s,
              pyMin (resolvedDur p s) (info.duration.getD (resolvedDur p s))⟩ := by
  have hnd : ¬ resolvedDur p s ≤ 0 := not_le.mpr hdur
  unfold processScrub
  simp [hurl, hnd, hty, hres, htrim]

/-- Witness for C5: the audio clip at 5s with requested duration 10s over a
10s source yields the segment ⟨5, 10⟩, untouched by the 8s composition
length. -/
theorem audio_segment_unclamped_witness :
    strLower scrubAudioLong.mediaType = ("audio") ∧
    0 < resolvedDur payloadC5 scrubAudioLong ∧
    (processScrub envAudio10 payloadC5 8 scrubAudioLong).aud
      = some ⟨scrubberStart payloadC5 scrubAudioLong,
              pyMin (resolvedDur payloadC5 scrubAudioLong)
                ((MediaInfo.mk (some 10) false).duration.getD
                  (resolvedDur payloadC5 scrubAudioLong))⟩ :=
  ⟨by decide, by decide,
   audio_segment_unclamped envAudio10 payloadC5 8 scrubAudioLong
     ⟨some 10, false⟩ (by decide) (by decide) (by decide) (by decide)
     (by decide)⟩

/-- Claim C5 counterexample: an 8-second composition with one audio clip
running 5s–15s (source 10s long) produces a mixed audio extent of 15s,
which exceeds the composition's total duration of 8s. -/
theorem mixed_audio_exceeds_total_duration :
    totalDurationOf payloadC5 = 8 ∧
    mixedAudioEnd envAudio10 payloadC5 = 15 ∧
    ¬ mixedAudioEnd envAudio10 payloadC5 ≤ totalDurationOf payloadC5 := by
  have h1 : totalDurationOf payloadC5 = 8 := by
    norm_num [totalDurationOf, payloadC5, RenderPayload.framesOf,
      RenderPayload.fpsClamped, RenderPayload.timelineOf, RenderPayload.ppsOf,
      pyOrI, pyMaxI, pyMinI, pyMax, computeTimelineDurationSeconds]
  have h2 : processScrub envAudio10 payloadC5 8 scrubAudioLong
      = { aud := some ⟨5, 10⟩ } := by decide
  have htl : payloadC5.timelineOf = [{ scrubbers := [scrubAudioLong] }] := by
    decide
  have h3 : renderAudio envAudio10 payloadC5 = [⟨5, 10⟩] := by
    simp [renderAudio, audioList, htl, h1, h2, List.filterMap_cons]
  have h4 : mixedAudioEnd envAudio10 payloadC5 = 15 := by
    norm_num [mixedAudioEnd, h3, pyMax]
  exact ⟨h1, h4, by rw [h4, h1]; norm_num⟩

/-! ## Claim C6: temp-file lifecycle -/

theorem trackFs_spec (env : RenderEnv) (p : RenderPayload) :
    ∀ ss : List Scrubber, ∀ fs : Fs,
      trackFs env p ss fs
        = { fs with files := fs.files ++ trackDownloads env p ss } := by
  intro ss
  induction ss with
  | nil => intro fs; simp [trackFs, trackDownloads]
  | cons s ss ih =>
    intro fs
    simp [trackFs, trackDownloads, ih, List.append_assoc]

theorem tracksFs_spec (env : RenderEnv) (p : RenderPayload) :
    ∀ ts : List Track, ∀ fs : Fs,
      tracksFs env p ts fs
        = { fs with files := fs.files
            ++ ts.foldr (fun t acc => trackDownloads env p t.scrubbers ++ acc) [] } := by
  intro ts
  induction ts with
  | nil => intro fs; simp [tracksFs]
  | cons t ts ih =>
    intro fs
    simp [tracksFs, trackFs_spec, ih, List.append_assoc]

/-- Claim C6 (amended): `render_video` removes nothing.  On every exit path —
primary write success, fallback success, fallback raising, or the primary
write raising a non-TypeError — the per-request `render_*` temp directory
and every downloaded `media_*` source copy are still present when the
request completes; the only `finally` clause closes the composite clip. -/
theorem render_leaves_temp_files (env : RenderEnv) (p : RenderPayload)
    (w : WriteOutcome) (fs : Fs) :
    (renderFs env p w fs).files = fs.files ++ downloadsOf env p ∧
    (renderFs env p w fs).dirs = fs.dirs ++ [("render_tmp")] := by
  unfold renderFs downloadsOf
  rw [tracksFs_spec]
  exact ⟨rfl, rfl⟩

/-- Claim C6 counterexample: one remote image clip, both write attempts
fail — the downloaded copy and the temp directory are left behind, not
removed as the claim states. -/
theorem render_temp_left_on_failure :
    (renderFs envAllMedia payloadOneImage .fallbackRaise {}).files
        = [("http://h/a.png")] ∧
    (renderFs envAllMedia payloadOneImage .fallbackRaise {}).dirs
        = [("render_tmp")] := by decide

/-! ## Split endpoints: lookup lemmas and claim C8 -/

theorem findByStorageKey_mem (st : Store) (u : String) (proj : Option String)
    (k : String) (a : Asset) (h : findByStorageKey st u proj k = some a) :
    a ∈ st.assets :=
  List.mem_of_find?_eq_some h

theorem findByName_mem (st : Store) (u : String) (proj : Option String)
    (nm : String) (a : Asset) (h : findByName st u proj nm = some a) :
    a ∈ st.assets :=
  List.mem_of_find?_eq_some h

theorem getAsset_mem (st : Store) (i : String) (a : Asset)
    (h : getAsset st i = some a) : a ∈ st.assets :=
  List.mem_of_find?_eq_some h

theorem locateAsset_mem (st : Store) (user : String) (body : MediaSplitRequest)
    (a : Asset) (h : locateAsset st user body = some a) : a ∈ st.assets := by
  unfold locateAsset at h
  by_cases h1 : strTruthy body.storage_key
  · simp only [h1, if_true] at h
    rcases hx : findByStorageKey st user body.project_id (body.storage_key.getD "") with _ | b
    · rw [hx] at h
      simp only at h
      by_cases h2 : strTruthy body.name
      · simp only [h2, if_true] at h
        exact findByName_mem st user body.project_id (body.name.getD "") a h
      · simp [h2] at h
    · rw [hx] at h
      simp only [Option.some.injEq] at h
      subst h
      exact findByStorageKey_mem st user body.project_id (body.storage_key.getD "") b hx
  · simp only [h1, if_false] at h
    by_cases h2 : strTruthy body.name
    · simp only [h2, if_true] at h
      exact findByName_mem st user body.project_id (body.name.getD "") a h
    · simp [h2] at h

theorem locateById_mem (st : Store) (user : String)
    (body : MediaSplitByIdRequest) (a : Asset)
    (h : locateById st user body = some a) : a ∈ st.assets := by
  unfold locateById at h
  rcases hx : getAsset st body.asset_id with _ | b
  · rw [hx] at h; cases h
  · rw [hx] at h
    by_cases hu : b.userId ≠ user
    · simp [hu] at h
    · simp only [hu, if_false, Option.some.injEq] at h
      subst h
      exact getAsset_mem st body.asset_id b hx

/-- Claim C8: for every split request with a non-positive supplied split
point, `/media/split` rejects it with a client error (4xx) and changes no
files or rows, while `/media/split-by-id` bumps it to the minimal positive
value 0.033 s and proceeds — it behaves exactly as the same request asking
to split at 0.033 s. -/
theorem nonpositive_split_asymmetry (env : SplitEnv) (st : Store)
    (user : String) (body : MediaSplitRequest)
    (body2 : MediaSplitByIdRequest) (s0 : ℚ)
    (h : body.split_time ≤ 0)
    (h2 : computeSplitT body2 = some s0) (h3 : s0 ≤ 0) :
    ((splitMedia env st user body).2 = st ∧
      ∃ c m, (splitMedia env st user body).1 = SplitResult.err c m ∧
        (c = 400 ∨ c = 404)) ∧
    splitMediaById env st user body2
      = splitMediaById env st user
          { body2 with split_frames := none, split_time := some (33 / 1000) } := by
  constructor
  · unfold splitMedia
    rcases hA : locateAsset st user body with _ | a
    · simp only [hA]
      exact ⟨by trivial, _, _, by rfl, by norm_num⟩
    · simp only [hA]
      split_ifs with h1 h2 <;>
        first
          | exact absurd h (by assumption)
          | exact ⟨by trivial, _, _, by rfl, by norm_num⟩
  · unfold splitMediaById
    have hcs : computeSplitT
        { body2 with split_frames := none, split_time := some (33 / 1000) }
        = some (33 / 1000) := by
      simp [computeSplitT]
    have h33 : ¬ ((33 : ℚ) / 1000 ≤ 0) := by norm_num
    rcases hA : getAsset st body2.asset_id with _ | a
    · simp [hA]
    · by_cases hu : a.userId = user
      · simp [hA, hu, h2, hcs, h3, h33]
      · simp [hA, hu]

/-! ## Claim C4: beyond-duration split points -/

/-- Claim C4 (amended): asymmetric beyond-duration handling.  `/media/split`
rejects a split point at or beyond the source duration with a 400 client
error and leaves the store unchanged; only `/media/split-by-id` clamps it to
`max(0, duration − 0.033)` and proceeds, producing two parts whose recorded
durations are the clamped value and the remainder. -/
theorem split_beyond_duration_asymmetry (env : SplitEnv) (st : Store)
    (user : String) (body : MediaSplitRequest)
    (body2 : MediaSplitByIdRequest) (a a2 : Asset) (s0 : ℚ)
    (hA : locateAsset st user body = some a)
    (hf : st.files.contains a.storageKey = true)
    (hk : (isVideoAsset a || isAudioAsset a) = true)
    (hpos : 0 < body.split_time)
    (hmp : env.moviepyAvailable = true)
    (hopen : env.openOk a.storageKey = true)
    (hbey : env.mediaDuration a.storageKey ≤ body.split_time)
    (hA2 : getAsset st body2.asset_id = some a2)
    (hu2 : a2.userId = user)
    (hcs : computeSplitT body2 = some s0)
    (hpos2 : 0 < s0)
    (hf2 : st.files.contains a2.storageKey = true)
    (hk2 : (isVideoAsset a2 || isAudioAsset a2) = true)
    (hopen2 : env.openOk a2.storageKey = true)
    (hbey2 : env.mediaDuration a2.storageKey ≤ s0)
    (hw1 : env.writeOk (outNames a2 (isVideoAsset a2) env.ts).1 = true)
    (hw2 : env.writeOk (outNames a2 (isVideoAsset a2) env.ts).2 = true) :
    splitMedia env st user body
      = (SplitResult.err 400 ("split_time beyond duration"), st) ∧
    ∃ left right : Asset,
      (splitMediaById env st user body2).1 = SplitResult.ok left right ∧
      left.durationSeconds
        = some (pyMax 0 (env.mediaDuration a2.storageKey - 33 / 1000)) ∧
      right.durationSeconds
        = some (env.mediaDuration a2.storageKey
            - pyMax 0 (env.mediaDuration a2.storageKey - 33 / 1000)) := by
  have hfm : a.storageKey ∈ st.files := by simpa using hf
  constructor
  · unfold splitMedia
    simp [hA, hf, hfm, hk, hmp, hopen, not_le.mpr hpos, hbey]
  · unfold splitMediaById byIdAfterSplit
    have hcl : clampSplitToDuration s0 (env.mediaDuration a2.storageKey)
        = pyMax 0 (env.mediaDuration a2.storageKey - 33 / 1000) := by
      unfold clampSplitToDuration
      rw [if_pos hbey2]
    simp only [hA2, hu2, ne_eq, not_true_eq_false, if_false, hcs, hf2, hk2,
      hmp, hopen2, not_le.mpr hpos2, Bool.not_eq_true, if_neg, hcl,
      splitEncodeAndPersist, hw1, hw2]
    exact ⟨_, _, rfl, rfl, rfl⟩

/-- Claim C4 counterexample: splitting the 10s video asset at 12s through
the primary `/media/split` endpoint is rejected with a 400 error — it is
not clamped, and no pair of parts is produced. -/
theorem primary_split_rejects_beyond_duration :
    splitMedia envSplit stSplit ("u") bodyBeyond
      = (SplitResult.err 400 ("split_time beyond duration"), stSplit) ∧
    ∀ x y : Asset,
      (splitMedia envSplit stSplit ("u") bodyBeyond).1 ≠ SplitResult.ok x y := by
  have h : splitMedia envSplit stSplit ("u") bodyBeyond
      = (SplitResult.err 400 ("split_time beyond duration"), stSplit) := by
    decide
  refine ⟨h, fun x y hxy => ?_⟩
  rw [h] at hxy
  cases hxy

/-- Witness for C4: the same 10s asset split at 12s — rejected by the
primary endpoint, clamped to 9.967s by the id-based endpoint. -/
theorem split_beyond_duration_asymmetry_witness :
    locateAsset stSplit ("u") bodyBeyond = some assetVid ∧
    (0 : ℚ) < bodyBeyond.split_time ∧
    envSplit.mediaDuration assetVid.storageKey ≤ bodyBeyond.split_time ∧
    computeSplitT byIdBeyond = some 12 ∧
    (splitMedia envSplit stSplit ("u") bodyBeyond
      = (SplitResult.err 400 ("split_time beyond duration"), stSplit) ∧
    ∃ left right : Asset,
      (splitMediaById envSplit stSplit ("u") byIdBeyond).1
        = SplitResult.ok left right ∧
      left.durationSeconds
        = some (pyMax 0 (envSplit.mediaDuration assetVid.storageKey - 33 / 1000)) ∧
      right.durationSeconds
        = some (envSplit.mediaDuration assetVid.storageKey
            - pyMax 0 (envSplit.mediaDuration assetVid.storageKey - 33 / 1000))) :=
  ⟨by decide, by decide, by decide, by decide,
   split_beyond_duration_asymmetry envSplit stSplit ("u") bodyBeyond byIdBeyond
     assetVid assetVid 12 (by decide) (by decide) (by decide) (by decide)
     (by decide) (by decide) (by decide) (by decide) (by decide) (by decide)
     (by decide) (by decide) (by decide) (by decide) (by decide) (by decide)
     (by decide)⟩

/-! ## Claim C3: split failure atomicity -/

theorem sound_err_unchanged (src : Asset) (keep : Bool) (st : Store)
    (c : Nat) (m : String) :
    SplitOutcomeSound src keep st (SplitResult.err c m, st) := by
  constructor
  · intro c' m' _
    exact ⟨rfl, fun x hx => hx, fun hx => hx⟩
  · intro a1 a2 hx
    simp at hx

theorem sound_err_removed (src : Asset) (keep : Bool) (st : Store)
    (c : Nat) (m : String) (o1 o2 : String)
    (h1 : src.storageKey ≠ o1) (h2 : src.storageKey ≠ o2) :
    SplitOutcomeSound src keep st
      (SplitResult.err c m,
       { st with files := removeFile (removeFile st.files o1) o2 }) := by
  constructor
  · intro c' m' _
    refine ⟨rfl, ?_, ?_⟩
    · intro x hx
      simp only [removeFile, List.mem_filter] at hx
      exact hx.1.1
    · intro hsrc
      simp [removeFile, List.mem_filter, hsrc, h1, h2]
  · intro a1 a2 hx
    simp at hx

theorem sound_err_removed_mid (src : Asset) (keep : Bool) (st : Store)
    (c : Nat) (m : String) (o1 o2 : String)
    (h1 : src.storageKey ≠ o1) (h2 : src.storageKey ≠ o2) :
    SplitOutcomeSound src keep st
      (SplitResult.err c m,
       { st with files := removeFile (removeFile (st.files ++ [o1]) o1) o2 }) := by
  constructor
  · intro c' m' _
    refine ⟨rfl, ?_, ?_⟩
    · intro x hx
      simp only [removeFile, List.mem_filter, List.mem_append,
        List.mem_singleton] at hx
      rcases hx with ⟨⟨hmem | hmem, hne⟩, _⟩
      · exact hmem
      · subst hmem
        simp at hne
    · intro hsrc
      simp [removeFile, List.mem_filter, hsrc, h1, h2]
  · intro a1 a2 hx
    simp at hx

theorem splitEncodeAndPersist_sound (env : SplitEnv) (st : Store)
    (user : String) (src : Asset) (splitT total : ℚ) (isVid : Bool)
    (proj : Option String) (keep : Bool)
    (hsrc : src ∈ st.assets)
    (hne1 : src.storageKey ≠ (outNames src isVid env.ts).1)
    (hne2 : src.storageKey ≠ (outNames src isVid env.ts).2)
    (hfresh : ∀ key : String, env.freshId key ∉ st.assets.map Asset.id) :
    SplitOutcomeSound src keep st
      (splitEncodeAndPersist env st user src splitT total
        (outNames src isVid env.ts).1 (outNames src isVid env.ts).2
        isVid proj keep) := by
  have hid1 : env.freshId (outNames src isVid env.ts).1 ≠ src.id := by
    intro he
    exact hfresh (outNames src isVid env.ts).1
      (he ▸ List.mem_map_of_mem Asset.id hsrc)
  have hid2 : env.freshId (outNames src isVid env.ts).2 ≠ src.id := by
    intro he
    exact hfresh (outNames src isVid env.ts).2
      (he ▸ List.mem_map_of_mem Asset.id hsrc)
  unfold splitEncodeAndPersist
  by_cases hw1 : env.writeOk (outNames src isVid env.ts).1 = true
  case neg =>
    simp only [hw1, not_false_eq_true, if_true]
    exact sound_err_removed src keep st 500 ("Split failed") _ _ hne1 hne2
  case pos =>
    simp only [hw1, not_true_eq_false, if_false]
    by_cases hw2 : env.writeOk (outNames src isVid env.ts).2 = true
    case neg =>
      simp only [hw2, not_false_eq_true, if_true]
      exact sound_err_removed_mid src keep st 500 ("Split failed") _ _ hne1 hne2
    case pos =>
      simp only [hw2, not_true_eq_false, if_false]
      constructor
      · intro c m hx
        simp at hx
      · intro b1 b2 hx
        simp only [SplitResult.ok.injEq] at hx
        obtain ⟨he1, he2⟩ := hx
        subst he1
        subst he2
        cases keep with
        | true =>
          refine ⟨?_, ?_, fun _ => ⟨?_, fun hs => ?_⟩, fun hk => by simp at hk⟩
          · simp
          · simp
          · simp
          · simp [hs]
        | false =>
          refine ⟨?_, ?_, fun hk => by simp at hk, fun _ => ⟨?_, ?_⟩⟩
          · simp [hid1]
          · simp [hid2]
          · intro hmemid
            simp only [Bool.false_eq_true, if_false, List.mem_map] at hmemid
            obtain ⟨x, hxmem, hxid⟩ := hmemid
            simp only [List.mem_filter] at hxmem
            rw [hxid] at hxmem
            simp at hxmem
          · simp [removeFile, List.mem_filter]

/-- Claim C3: both split endpoints are atomic in the caller-visible sense.
For the asset the request locates: every error outcome leaves the asset
rows unchanged, leaves no new file behind (outputs written before a failure
are removed) and preserves the source file; every success outcome contains
both created rows, and the source row and file are removed exactly when
`keep_original` is unset — so the source is deleted only after both parts
exist, and a caller never observes a usable partially-created pair. -/
theorem split_atomic_cleanup (env : SplitEnv) (st : Store) (user : String)
    (body : MediaSplitRequest) (body2 : MediaSplitByIdRequest)
    (hfresh : ∀ key : String, env.freshId key ∉ st.assets.map Asset.id)
    (hout : ∀ a ∈ st.assets, ∀ v : Bool,
      a.storageKey ≠ (outNames a v env.ts).1
        ∧ a.storageKey ≠ (outNames a v env.ts).2) :
    (∀ a, locateAsset st user body = some a →
      SplitOutcomeSound a body.keep_original st (splitMedia env st user body)) ∧
    (∀ a, locateById st user body2 = some a →
      SplitOutcomeSound a body2.keep_original st
        (splitMediaById env st user body2)) := by
  constructor
  · intro a hA
    have hmem := locateAsset_mem st user body a hA
    obtain ⟨hne1, hne2⟩ := hout a hmem (isVideoAsset a)
    unfold splitMedia
    simp only [hA]
    split_ifs with h1 h2 h3 h4 h5 h6 <;>
      first
        | exact sound_err_unchanged a body.keep_original st _ _
        | exact sound_err_removed a body.keep_original st 500 _ _ _ hne1 hne2
        | exact splitEncodeAndPersist_sound env st user a _ _
            (isVideoAsset a) _ body.keep_original hmem hne1 hne2 hfresh
  · intro a hA
    have hmem := locateById_mem st user body2 a hA
    obtain ⟨hne1, hne2⟩ := hout a hmem (isVideoAsset a)
    unfold locateById at hA
    unfold splitMediaById byIdAfterSplit
    rcases hg : getAsset st body2.asset_id with _ | b
    · rw [hg] at hA; cases hA
    · rw [hg] at hA
      by_cases hu : b.userId ≠ user
      · simp [hu] at hA
      · simp only [hu, if_false, Option.some.injEq] at hA
        subst hA
        simp only [hg, hu, if_false]
        rcases hcs : computeSplitT body2 with _ | s0 <;> simp only [hcs]
        · exact sound_err_unchanged _ _ _ 400 _
        · split_ifs with h1 h2 h3 h4 <;>
            first
              | exact sound_err_unchanged _ _ _ _ _
              | exact sound_err_removed _ _ _ 500 _ _ _ hne1 hne2
              | exact splitEncodeAndPersist_sound env st user _ _ _
                  (isVideoAsset b) _ _ hmem hne1 hne2 hfresh

/-- Witness for C3: a successful split of the 10s video at 4s — the theorem
instantiated at a concrete store, environment and request. -/
theorem split_atomic_cleanup_witness :
    (∀ key : String, envSplit.freshId key ∉ stSplit.assets.map Asset.id) ∧
    locateAsset stSplit ("u") bodyOk = some assetVid ∧
    SplitOutcomeSound assetVid bodyOk.keep_original stSplit
      (splitMedia envSplit stSplit ("u") bodyOk) := by
  have hfresh : ∀ key : String,
      envSplit.freshId key ∉ stSplit.assets.map Asset.id := by
    intro key
    simp [envSplit, stSplit, assetVid]
  have hout : ∀ a ∈ stSplit.assets, ∀ v : Bool,
      a.storageKey ≠ (outNames a v envSplit.ts).1
        ∧ a.storageKey ≠ (outNames a v envSplit.ts).2 := by
    intro a ha v
    fin_cases ha <;> cases v <;> exact ⟨by decide, by decide⟩
  exact ⟨hfresh, by decide,
    (split_atomic_cleanup envSplit stSplit ("u") bodyOk byIdNeg hfresh hout).1
      assetVid (by decide)⟩

/-- Witness for C8: a split at −1 s is rejected by `/media/split` with the
store untouched, while a split at −2 s via `/media/split-by-id` behaves
exactly like a split at 0.033 s. -/
theorem nonpositive_split_asymmetry_witness :
    bodyNeg.split_time ≤ 0 ∧ computeSplitT byIdNeg = some (-2) ∧
    (((splitMedia envSplit stSplit ("u") bodyNeg).2 = stSplit ∧
      ∃ c m, (splitMedia envSplit stSplit ("u") bodyNeg).1 = SplitResult.err c m ∧
        (c = 400 ∨ c = 404)) ∧
    splitMediaById envSplit stSplit ("u") byIdNeg
      = splitMediaById envSplit stSplit ("u")
          { byIdNeg with split_frames := none, split_time := some (33 / 1000) }) :=
  ⟨by norm_num [bodyNeg], by decide,
   nonpositive_split_asymmetry envSplit stSplit ("u") bodyNeg byIdNeg (-2)
     (by norm_num [bodyNeg]) (by decide) (by norm_num)⟩

end VideoEditor
